import Mathlib

/-!
Verification of the macbird Thunderbird MCP bridge.

This file gives a shallow embedding of the bridge code in
`src/server/server.ts` (the WebSocket server: single-client registry,
correlation table `pendingRequests`, `sendCommandToThunderbird`, the
`open`/`message`/`close` WebSocket handlers, and the `read_email`
post-processing step) and of the worker-side code in the add-on
background script (`handleCommand` and the `connectToCC`
reconnect logic), and proves the specified properties about them.

JSON values are modelled by the inductive `JVal`; the JS `Map` used for
`pendingRequests` is modelled as an association list with JS `Map`
get/set/delete semantics; timers are modelled by identifiers tracked in
a list of live timers.  Promise continuations are modelled by a numeric
caller identifier together with an explicit list of `Resolution` events
(settlement attempts) produced by each operation.
-/

/-- A JSON-like value, the shape of payloads on the wire. -/
inductive JVal where
  | null : JVal
  | bool (b : Bool) : JVal
  | num (n : Int) : JVal
  | str (s : String) : JVal
  | arr (xs : List JVal) : JVal
  | obj (fields : List (String × JVal)) : JVal
deriving Repr

/-- JavaScript truthiness of a `JVal`. -/
def jTruthy : JVal → Bool
  | .null => false
  | .bool b => b
  | .num n => n != 0
  | .str s => s ≠ ""
  | .arr _ => true
  | .obj _ => true

/-- Lookup a field of a JSON object field list (the `in` / `.` operators). -/
def objGet (fields : List (String × JVal)) (k : String) : Option JVal :=
  match fields with
  | [] => none
  | (k1, v) :: rest => if k1 = k then some v else objGet rest k

/-- Assign a field of a JSON object field list (JS property assignment:
replace in place if present, append otherwise). -/
def objSet (fields : List (String × JVal)) (k : String) (v : JVal) :
    List (String × JVal) :=
  match fields with
  | [] => [(k, v)]
  | (k1, v1) :: rest => if k1 = k then (k, v) :: rest else (k1, v1) :: objSet rest k v

/-- Delete a field of a JSON object field list (the JS `delete` operator). -/
def objDelete (fields : List (String × JVal)) (k : String) :
    List (String × JVal) :=
  match fields with
  | [] => []
  | (k1, v1) :: rest => if k1 = k then objDelete rest k else (k1, v1) :: objDelete rest k

/-- Lookup in a JS `Map` modelled as an association list (`Map.get`). -/
def mapGet {α : Type} (m : List (String × α)) (k : String) : Option α :=
  match m with
  | [] => none
  | (k1, v) :: rest => if k1 = k then some v else mapGet rest k

/-- Insert into a JS `Map` (`Map.set`: replace in place, else append). -/
def mapSet {α : Type} (m : List (String × α)) (k : String) (v : α) :
    List (String × α) :=
  match m with
  | [] => [(k, v)]
  | (k1, v1) :: rest => if k1 = k then (k, v) :: rest else (k1, v1) :: mapSet rest k v

/-- Remove from a JS `Map` (`Map.delete`). -/
def mapDelete {α : Type} (m : List (String × α)) (k : String) :
    List (String × α) :=
  match m with
  | [] => []
  | (k1, v1) :: rest => if k1 = k then mapDelete rest k else (k1, v1) :: mapDelete rest k

/-! ### Server-side state (`server.ts` lines 14-26)

`currentClient : ThunderbirdClient | null` and
`pendingRequests : Map<string, {resolve, reject, timeout}>`.

The promise continuation pair `{resolve, reject}` of a pending entry is
modelled by an opaque caller identifier (`caller`); invoking it is
recorded as a `Resolution` event.  The `timeout : Timer` field is the
identifier of the entry's deadline timer; `liveTimers` tracks which
timers are currently scheduled and not yet fired or cancelled
(`setTimeout` adds one, `clearTimeout` and firing remove it). -/

/-- One Thunderbird client connection (`interface ThunderbirdClient`). -/
structure ThunderbirdClient where
  wsId : String
  addonId : Option String
  connectedAt : Nat
deriving Repr, DecidableEq

/-- One entry of the correlation table `pendingRequests`. -/
structure PendingEntry where
  caller : Nat
  timeoutTimer : Nat
deriving Repr, DecidableEq

/-- The mutable server state of `server.ts`. -/
structure ServerState where
  currentClient : Option ThunderbirdClient
  pendingRequests : List (String × PendingEntry)
  liveTimers : List Nat
deriving Repr, DecidableEq

/-- A frame the server sends on a WebSocket (`ws.send(JSON.stringify(...))`). -/
inductive ServerFrame where
  | welcome (clientId : String) (timestamp : String)
  | registered (success : Bool)
  | heartbeatAck (timestamp : String)
  | command (ctype : String) (requestId : String) (payload : Option JVal)
deriving Repr

/-- An observable output of a server-side operation: closing a socket
(`ws.close(code, reason)`) or sending a frame on a socket. -/
inductive SrvOut where
  | closeConn (wsId : String) (code : Nat) (reason : String)
  | sendFrame (wsId : String) (frame : ServerFrame)
deriving Repr

/-- A settlement attempt on a caller's promise: `resolve(payload)` or
`reject(new Error(errMsg))`. -/
inductive Resolution where
  | resolved (caller : Nat) (payload : Option JVal)
  | rejected (caller : Nat) (errMsg : String)
deriving Repr

/-- A parsed inbound message (`interface ClientMessage`). -/
structure ClientMessage where
  type : String
  requestId : Option String
  addonId : Option String
  payload : Option JVal
deriving Repr

/-- The error message used when no client is connected
(`server.ts` line 164). -/
def noClientError : String :=
  "No Thunderbird client connected. Make sure the addon is loaded."

/-- The error message used when a request's deadline fires
(`server.ts` line 174). -/
def timeoutError : String := "Request timeout"

/-- The `open` WebSocket handler (`server.ts` lines 79-102): kick away
any existing client with a normal close, install the new client as
current, send it a `welcome` frame.  `wsId` is `ws.data.id` and `now`
the accept time. -/
def wsOpen (wsId : String) (now : Nat) (nowIso : String) (st : ServerState) :
    ServerState × List SrvOut :=
  let closeOuts : List SrvOut :=
    match st.currentClient with
    | some old => [SrvOut.closeConn old.wsId 1000 "New client connected"]
    | none => []
  let client : ThunderbirdClient := { wsId := wsId, addonId := none, connectedAt := now }
  ({ st with currentClient := some client },
   closeOuts ++ [SrvOut.sendFrame wsId (ServerFrame.welcome wsId nowIso)])

/-- The `message` WebSocket handler (`server.ts` lines 104-148):
ignore messages unless they come from the current client; then dispatch
on the frame type (`register` / `heartbeat` / `response` / unknown). -/
def wsMessage (wsId : String) (msg : ClientMessage) (nowIso : String)
    (st : ServerState) : ServerState × List SrvOut × List Resolution :=
  match st.currentClient with
  | none => (st, [], [])
  | some cur =>
    if cur.wsId = wsId then
      if msg.type = "register" then
        ({ st with currentClient := some { cur with addonId := msg.addonId } },
         [SrvOut.sendFrame wsId (ServerFrame.registered true)], [])
      else if msg.type = "heartbeat" then
        (st, [SrvOut.sendFrame wsId (ServerFrame.heartbeatAck nowIso)], [])
      else if msg.type = "response" then
        match msg.requestId with
        | none => (st, [], [])
        | some rid =>
          match mapGet st.pendingRequests rid with
          | none => (st, [], [])
          | some pend =>
            ({ st with
               pendingRequests := mapDelete st.pendingRequests rid,
               liveTimers := st.liveTimers.erase pend.timeoutTimer },
             [], [Resolution.resolved pend.caller msg.payload])
      else (st, [], [])
    else (st, [], [])

/-- The `close` WebSocket handler (`server.ts` lines 150-154): clear the
current-client slot only if the closing socket is still the current one.
The correlation table is not touched. -/
def wsClose (wsId : String) (st : ServerState) : ServerState :=
  match st.currentClient with
  | some cur => if cur.wsId = wsId then { st with currentClient := none } else st
  | none => st

/-- `sendCommandToThunderbird` (`server.ts` lines 161-187).  `requestId`
is the freshly generated `crypto.randomUUID()`, `timerId` the timer
handle returned by `setTimeout`, and `caller` identifies the returned
promise's continuations.  `sendError = some e` models
`currentClient.ws.send` throwing `e`; `none` models a successful send. -/
def sendCommandToThunderbird (ctype : String) (payload : Option JVal)
    (caller : Nat) (requestId : String) (timerId : Nat)
    (sendError : Option String) (st : ServerState) :
    ServerState × List SrvOut × List Resolution :=
  match st.currentClient with
  | none => (st, [], [Resolution.rejected caller noClientError])
  | some cur =>
    let st1 : ServerState :=
      { st with
        pendingRequests := mapSet st.pendingRequests requestId ⟨caller, timerId⟩,
        liveTimers := st.liveTimers ++ [timerId] }
    match sendError with
    | none =>
      (st1, [SrvOut.sendFrame cur.wsId (ServerFrame.command ctype requestId payload)], [])
    | some err =>
      ({ st1 with
         pendingRequests := mapDelete st1.pendingRequests requestId,
         liveTimers := st1.liveTimers.erase timerId },
       [], [Resolution.rejected caller err])

/-- The deadline-timer callback of a pending request (`server.ts` lines
172-175): delete the entry and reject the caller with the timeout
error.  The timer itself has fired, so it leaves `liveTimers`. -/
def timeoutFire (requestId : String) (caller : Nat) (timerId : Nat)
    (st : ServerState) : ServerState × List Resolution :=
  ({ st with
     pendingRequests := mapDelete st.pendingRequests requestId,
     liveTimers := st.liveTimers.erase timerId },
   [Resolution.rejected caller timeoutError])

/-! ### Worker-side command handling (add-on background script)

`handleCommand(command)` destructures `{type, requestId, payload}`,
early-returns on the system message types `welcome` / `registered` /
`heartbeat_ack`, routes the nine known command types to their handlers,
answers any other type with an `Unknown command type` error payload, and
sends exactly one `response` frame carrying the original `requestId`
when one is present; if a handler raises, the catch block sends a
failure payload with the error message and stack instead.

The domain handlers (`handleListAccounts`, ...) call the Thunderbird
WebExtension API, which is outside the bridge; they are modelled by the
executor parameter `exec`, which either returns a result value or
raises (message and stack). -/

/-- Outcome of invoking a domain handler: result value, or a raised
exception with message and stack. -/
inductive ExecResult where
  | ok (v : JVal)
  | raised (msg : String) (stack : String)
deriving Repr

/-- A command frame as received by the worker. -/
structure WCommand where
  type : String
  requestId : Option String
  payload : Option JVal
deriving Repr

/-- A message the worker passes to `sendToCC`. -/
structure WMsg where
  type : String
  requestId : Option String
  payload : Option JVal
deriving Repr

/-- The system message types that `handleCommand` early-returns on. -/
def systemMessageTypes : List String := ["welcome", "registered", "heartbeat_ack"]

/-- The nine command types routed by the `switch` in `handleCommand`. -/
def knownCommandTypes : List String :=
  ["list_accounts", "list_folders", "list_unread_emails", "search_emails",
   "read_email_raw", "read_email", "send_email", "read_email_attachments",
   "download_attachment"]

/-- The error payload for an unrecognized command type. -/
def unknownCommandPayload (t : String) : JVal :=
  .obj [("success", .bool false), ("error", .str "Unknown command type"),
        ("commandType", .str t)]

/-- The failure payload the catch block sends when a handler raises. -/
def raisedPayload (msg stack : String) : JVal :=
  .obj [("success", .bool false), ("error", .str msg), ("stack", .str stack)]

/-- `handleCommand` of the background script, returning the list of
messages passed to `sendToCC`. -/
def handleCommand (exec : String → Option JVal → ExecResult) (cmd : WCommand) :
    List WMsg :=
  if cmd.type ∈ systemMessageTypes then []
  else if cmd.type ∈ knownCommandTypes then
    match exec cmd.type cmd.payload with
    | .ok r =>
      match cmd.requestId with
      | some rid => [⟨"response", some rid, some r⟩]
      | none => []
    | .raised m s =>
      match cmd.requestId with
      | some rid => [⟨"response", some rid, some (raisedPayload m s)⟩]
      | none => []
  else
    match cmd.requestId with
    | some rid => [⟨"response", some rid, some (unknownCommandPayload cmd.type)⟩]
    | none => []

/-! ### Worker-side reconnect logic (`connectToCC`, background script)

State variables of the background script: `ws` (null or a socket),
`reconnectTimeout` (null or the last value returned by `setTimeout` —
note the variable is NOT cleared when the timer fires, only `onopen`
nulls it), and `heartbeatInterval`.  `liveReconnectTimers` tracks which
reconnect timers are scheduled and have neither fired nor been
cleared; `nextTimerId` is a fresh supply of timer identifiers. -/

/-- The mutable connection state of the background script. -/
structure WorkerConnState where
  wsConn : Bool
  reconnectTimeout : Option Nat
  heartbeatRunning : Bool
  liveReconnectTimers : List Nat
  nextTimerId : Nat
deriving Repr, DecidableEq

/-- Events driving the reconnect state machine: a call to `connectToCC`
(`ctorOk` tells whether `new WebSocket` succeeded or threw), the
`onopen` handler, the `onclose` handler, and the firing of the stored
reconnect timer (whose callback is `connectToCC`, with its own
constructor outcome). -/
inductive WEvent where
  | connect (ctorOk : Bool)
  | opened
  | closed
  | timerFired (ctorOk : Bool)
deriving Repr

/-- The body of `connectToCC`: on constructor success the socket is
created (handlers attached); on a constructor throw the catch block
unconditionally schedules a fresh reconnect timer and stores it. -/
def connectBody (ctorOk : Bool) (st : WorkerConnState) : WorkerConnState :=
  if ctorOk then { st with wsConn := true }
  else
    { st with
      reconnectTimeout := some st.nextTimerId,
      liveReconnectTimers := st.liveReconnectTimers ++ [st.nextTimerId],
      nextTimerId := st.nextTimerId + 1 }

/-- One step of the worker reconnect state machine, following the
handlers in `connectToCC`:
`onopen` starts the heartbeat and clears any pending reconnect timer
(setting the variable to null); `onclose` nulls `ws`, stops the
heartbeat and schedules a reconnect timer only if `reconnectTimeout` is
null — the variable keeps the stale handle of an already-fired timer,
which is why the guard also blocks scheduling after a fired timer.
A timer can fire only while it is scheduled (live); firing removes it
from the live set and runs `connectToCC`, without clearing the
`reconnectTimeout` variable. -/
def workerStep (st : WorkerConnState) : WEvent → WorkerConnState
  | .connect ctorOk => connectBody ctorOk st
  | .opened =>
    let st1 := { st with heartbeatRunning := true }
    match st1.reconnectTimeout with
    | some t =>
      { st1 with
        reconnectTimeout := none,
        liveReconnectTimers := st1.liveReconnectTimers.erase t }
    | none => st1
  | .closed =>
    let st1 := { st with wsConn := false, heartbeatRunning := false }
    match st1.reconnectTimeout with
    | none =>
      { st1 with
        reconnectTimeout := some st1.nextTimerId,
        liveReconnectTimers := st1.liveReconnectTimers ++ [st1.nextTimerId],
        nextTimerId := st1.nextTimerId + 1 }
    | some _ => st1
  | .timerFired ctorOk =>
    match st.reconnectTimeout with
    | some t =>
      if t ∈ st.liveReconnectTimers then
        connectBody ctorOk { st with liveReconnectTimers := st.liveReconnectTimers.erase t }
      else st
    | none => st

/-- The background script's state at load time, before `connectToCC()`
runs: `ws = null`, `reconnectTimeout = null`, `heartbeatInterval = null`. -/
def workerInit : WorkerConnState :=
  { wsConn := false, reconnectTimeout := none, heartbeatRunning := false,
    liveReconnectTimers := [], nextTimerId := 0 }

/-- Run the worker reconnect machine over a list of events. -/
def workerRun (st : WorkerConnState) (evts : List WEvent) : WorkerConnState :=
  evts.foldl workerStep st

/-! ### Front-end post-processing of `read_email` (`server.ts` lines 529-574)

After a successful round trip, the `read_email` tool handler rewrites
an HTML body to markdown: if the result is an object with `success` and
`message` keys, the message is a truthy object whose `isHtml` is
truthy, and its `body` is a string, the body is replaced by the
turndown conversion and the `isHtml` flag deleted; if the conversion
raises, the original result is kept unchanged.  Turndown is an external
library, modelled by the parameter `convert` (`none` = conversion
raised). -/

/-- The HTML-to-markdown post-processing step of the `read_email` tool. -/
def postProcessReadEmail (convert : String → Option String) (result : JVal) : JVal :=
  match result with
  | .obj fields =>
    if (objGet fields "success").isSome ∧ (objGet fields "message").isSome then
      match objGet fields "message" with
      | some msg =>
        if jTruthy msg then
          match msg with
          | .obj mfields =>
            match objGet mfields "isHtml" with
            | some h =>
              if jTruthy h then
                match objGet mfields "body" with
                | some (.str body) =>
                  match convert body with
                  | some md =>
                    .obj (objSet fields "message"
                      (.obj (objDelete (objSet mfields "body" (.str md)) "isHtml")))
                  | none => result
                | _ => result
              else result
            | none => result
          | _ => result
        else result
      | none => result
    else result
  | _ => result

/-! ### Helper lemmas about the map model -/

theorem mapGet_mapDelete_self {α : Type} (m : List (String × α)) (k : String) :
    mapGet (mapDelete m k) k = none := by
  induction m with
  | nil => simp [mapGet, mapDelete]
  | cons hd tl ih =>
    obtain ⟨k1, v1⟩ := hd
    by_cases h : k1 = k
    · simpa [mapDelete, h] using ih
    · simpa [mapDelete, mapGet, h] using ih

theorem mapGet_mapDelete_ne {α : Type} (m : List (String × α)) (k k1 : String)
    (h : k1 ≠ k) : mapGet (mapDelete m k) k1 = mapGet m k1 := by
  induction m with
  | nil => simp [mapGet, mapDelete]
  | cons hd tl ih =>
    obtain ⟨k2, v2⟩ := hd
    simp only [mapDelete, mapGet]
    by_cases h2 : k2 = k
    · have hne : ¬ k2 = k1 := by
        intro hc
        exact h (hc.symm.trans h2)
      rw [if_pos h2, if_neg hne]
      exact ih
    · rw [if_neg h2]
      simp only [mapGet]
      by_cases h3 : k2 = k1
      · rw [if_pos h3, if_pos h3]
      · rw [if_neg h3, if_neg h3]
        exact ih

theorem mapDelete_of_mapGet_none {α : Type} (m : List (String × α)) (k : String)
    (h : mapGet m k = none) : mapDelete m k = m := by
  induction m with
  | nil => simp [mapDelete]
  | cons hd tl ih =>
    obtain ⟨k1, v1⟩ := hd
    by_cases h1 : k1 = k
    · simp [mapGet, h1] at h
    · simp [mapGet, h1] at h
      simp [mapDelete, h1, ih h]

theorem mapSet_of_mapGet_none {α : Type} (m : List (String × α)) (k : String)
    (v : α) (h : mapGet m k = none) : mapSet m k v = m ++ [(k, v)] := by
  induction m with
  | nil => simp [mapSet]
  | cons hd tl ih =>
    obtain ⟨k1, v1⟩ := hd
    by_cases h1 : k1 = k
    · simp [mapGet, h1] at h
    · simp [mapGet, h1] at h
      simp [mapSet, h1, ih h]

theorem mapDelete_mapSet_of_mapGet_none {α : Type} (m : List (String × α))
    (k : String) (v : α) (h : mapGet m k = none) :
    mapDelete (mapSet m k v) k = m := by
  rw [mapSet_of_mapGet_none m k v h]
  induction m with
  | nil => simp [mapDelete]
  | cons hd tl ih =>
    obtain ⟨k1, v1⟩ := hd
    by_cases h1 : k1 = k
    · simp [mapGet, h1] at h
    · simp [mapGet, h1] at h
      simp [mapDelete, h1, ih h]

theorem erase_append_singleton {t : Nat} {l : List Nat} (h : t ∉ l) :
    (l ++ [t]).erase t = l := by
  rw [List.erase_append_right _ h]
  simp

theorem mapGet_mapSet_self {α : Type} (m : List (String × α)) (k : String) (v : α) :
    mapGet (mapSet m k v) k = some v := by
  induction m with
  | nil => simp [mapGet, mapSet]
  | cons hd tl ih =>
    obtain ⟨k1, v1⟩ := hd
    by_cases h1 : k1 = k
    · simp [mapSet, mapGet, h1]
    · simp [mapSet, mapGet, h1, ih]

/-! ### Claim theorems -/

/-- Claim C2: for every command invocation while no connection is
current, `sendCommandToThunderbird` rejects immediately with the
distinguishable no-worker-connected error, transmits nothing, and
leaves the state — in particular the correlation table — unchanged. -/
theorem sendCommand_no_client (ctype : String) (payload : Option JVal)
    (caller : Nat) (requestId : String) (timerId : Nat)
    (sendError : Option String) (st : ServerState)
    (h : st.currentClient = none) :
    sendCommandToThunderbird ctype payload caller requestId timerId sendError st
      = (st, [], [Resolution.rejected caller noClientError]) ∧
    noClientError ≠ timeoutError := by
  constructor
  · simp [sendCommandToThunderbird, h]
  · decide

theorem sendCommand_no_client_witness :
    (ServerState.mk none [] []).currentClient = none ∧
    (sendCommandToThunderbird "list_accounts" none 0 "r1" 5 none
        (ServerState.mk none [] [])
      = (ServerState.mk none [] [], [], [Resolution.rejected 0 noClientError]) ∧
     noClientError ≠ timeoutError) :=
  ⟨rfl, sendCommand_no_client "list_accounts" none 0 "r1" 5 none _ rfl⟩

/-- Claim C8: a heartbeat frame from the current connection is answered
with a `heartbeat_ack` frame carrying a fresh timestamp, and the
exchange leaves the server state — in particular the correlation
table — completely unchanged. -/
theorem heartbeat_ack_no_table_change (wsId nowIso : String)
    (msg : ClientMessage) (st : ServerState) (cur : ThunderbirdClient)
    (hcur : st.currentClient = some cur) (hid : cur.wsId = wsId)
    (htype : msg.type = "heartbeat") :
    wsMessage wsId msg nowIso st
      = (st, [SrvOut.sendFrame wsId (ServerFrame.heartbeatAck nowIso)], []) := by
  simp [wsMessage, hcur, hid, htype]

theorem heartbeat_ack_no_table_change_witness :
    (ServerState.mk (some ⟨"w1", none, 0⟩) [("r1", ⟨1, 10⟩)] [10]).currentClient
      = some ⟨"w1", none, 0⟩ ∧
    wsMessage "w1" ⟨"heartbeat", none, none, none⟩ "2024-01-01T00:00:00Z"
        (ServerState.mk (some ⟨"w1", none, 0⟩) [("r1", ⟨1, 10⟩)] [10])
      = (ServerState.mk (some ⟨"w1", none, 0⟩) [("r1", ⟨1, 10⟩)] [10],
         [SrvOut.sendFrame "w1" (ServerFrame.heartbeatAck "2024-01-01T00:00:00Z")],
         []) :=
  ⟨rfl, heartbeat_ack_no_table_change "w1" "2024-01-01T00:00:00Z"
    ⟨"heartbeat", none, none, none⟩ _ ⟨"w1", none, 0⟩ rfl rfl rfl⟩

/-- Claim C4: accepting a new connection while one exists first closes
the old one with the normal-closure code 1000 and a human-readable
reason, then installs the new connection as current; and a later
disconnect event from the superseded connection does not clear the
newer connection's slot.  (At most one connection is current at every
instant by construction: `currentClient` is a single optional slot.) -/
theorem single_client_supersession (newId : String) (now : Nat)
    (nowIso : String) (st : ServerState) (old : ThunderbirdClient)
    (hold : st.currentClient = some old) (hne : old.wsId ≠ newId) :
    (wsOpen newId now nowIso st).1.currentClient = some ⟨newId, none, now⟩ ∧
    (wsOpen newId now nowIso st).2
      = [SrvOut.closeConn old.wsId 1000 "New client connected",
         SrvOut.sendFrame newId (ServerFrame.welcome newId nowIso)] ∧
    wsClose old.wsId (wsOpen newId now nowIso st).1
      = (wsOpen newId now nowIso st).1 := by
  have hne1 : ¬ newId = old.wsId := fun hc => hne hc.symm
  refine ⟨?_, ?_, ?_⟩
  · simp [wsOpen]
  · simp [wsOpen, hold]
  · simp [wsOpen, wsClose, hne1]

theorem single_client_supersession_witness :
    (ServerState.mk (some ⟨"w1", none, 0⟩) [] []).currentClient
      = some ⟨"w1", none, 0⟩ ∧
    ((wsOpen "w2" 5 "ts" (ServerState.mk (some ⟨"w1", none, 0⟩) [] [])).1.currentClient
        = some ⟨"w2", none, 5⟩ ∧
     (wsOpen "w2" 5 "ts" (ServerState.mk (some ⟨"w1", none, 0⟩) [] [])).2
        = [SrvOut.closeConn "w1" 1000 "New client connected",
           SrvOut.sendFrame "w2" (ServerFrame.welcome "w2" "ts")] ∧
     wsClose "w1" (wsOpen "w2" 5 "ts" (ServerState.mk (some ⟨"w1", none, 0⟩) [] [])).1
        = (wsOpen "w2" 5 "ts" (ServerState.mk (some ⟨"w1", none, 0⟩) [] [])).1) :=
  ⟨rfl, single_client_supersession "w2" 5 "ts" _ ⟨"w1", none, 0⟩ rfl (by decide)⟩

/-- Claim C1: a response frame carrying `requestId` resolves exactly the
caller registered under that id with exactly that frame's payload,
removes the entry from the correlation table, and leaves every other
entry untouched — so concurrent requests pair up with their own
responses regardless of arrival order. -/
theorem response_correlation (st : ServerState) (cur : ThunderbirdClient)
    (rid : String) (pend : PendingEntry) (p : Option JVal) (nowIso : String)
    (hcur : st.currentClient = some cur)
    (hrid : mapGet st.pendingRequests rid = some pend) :
    (wsMessage cur.wsId ⟨"response", some rid, none, p⟩ nowIso st).2.2
      = [Resolution.resolved pend.caller p] ∧
    mapGet (wsMessage cur.wsId ⟨"response", some rid, none, p⟩ nowIso st).1.pendingRequests rid
      = none ∧
    ∀ r1 : String, r1 ≠ rid →
      mapGet (wsMessage cur.wsId ⟨"response", some rid, none, p⟩ nowIso st).1.pendingRequests r1
        = mapGet st.pendingRequests r1 := by
  have hmsg : wsMessage cur.wsId ⟨"response", some rid, none, p⟩ nowIso st
      = ({ st with
           pendingRequests := mapDelete st.pendingRequests rid,
           liveTimers := st.liveTimers.erase pend.timeoutTimer },
         [], [Resolution.resolved pend.caller p]) := by
    simp [wsMessage, hcur, hrid]
  rw [hmsg]
  refine ⟨rfl, mapGet_mapDelete_self _ _, ?_⟩
  intro r1 h1
  exact mapGet_mapDelete_ne _ _ _ h1

theorem response_correlation_witness :
    mapGet [("r1", PendingEntry.mk 1 10), ("r2", PendingEntry.mk 2 11)] "r2"
      = some ⟨2, 11⟩ ∧
    ((wsMessage "w1" ⟨"response", some "r2", none, some (.str "p2")⟩ "ts"
        (ServerState.mk (some ⟨"w1", none, 0⟩)
          [("r1", ⟨1, 10⟩), ("r2", ⟨2, 11⟩)] [10, 11])).2.2
      = [Resolution.resolved 2 (some (.str "p2"))] ∧
     mapGet (wsMessage "w1" ⟨"response", some "r2", none, some (.str "p2")⟩ "ts"
        (ServerState.mk (some ⟨"w1", none, 0⟩)
          [("r1", ⟨1, 10⟩), ("r2", ⟨2, 11⟩)] [10, 11])).1.pendingRequests "r2"
      = none ∧
     ∀ r1 : String, r1 ≠ "r2" →
       mapGet (wsMessage "w1" ⟨"response", some "r2", none, some (.str "p2")⟩ "ts"
          (ServerState.mk (some ⟨"w1", none, 0⟩)
            [("r1", ⟨1, 10⟩), ("r2", ⟨2, 11⟩)] [10, 11])).1.pendingRequests r1
        = mapGet [("r1", PendingEntry.mk 1 10), ("r2", PendingEntry.mk 2 11)] r1) :=
  ⟨by decide,
   response_correlation
     (ServerState.mk (some ⟨"w1", none, 0⟩) [("r1", ⟨1, 10⟩), ("r2", ⟨2, 11⟩)] [10, 11])
     ⟨"w1", none, 0⟩ "r2" ⟨2, 11⟩ (some (.str "p2")) "ts" rfl (by decide)⟩

/-- Claim C3: after a request's deadline fires its entry is gone from
the correlation table and the caller is rejected with the timeout
error; a response frame whose entry has already been removed (by the
deadline or by an earlier response) changes nothing, sends nothing and
settles nobody — fulfillment happens at most once and first resolution
wins. -/
theorem timeout_idempotent (st st1 : ServerState) (cur : ThunderbirdClient)
    (rid : String) (caller timerId : Nat) (p : Option JVal) (nowIso : String)
    (hcur : st1.currentClient = some cur)
    (hgone : mapGet st1.pendingRequests rid = none) :
    mapGet (timeoutFire rid caller timerId st).1.pendingRequests rid = none ∧
    (timeoutFire rid caller timerId st).2
      = [Resolution.rejected caller timeoutError] ∧
    wsMessage cur.wsId ⟨"response", some rid, none, p⟩ nowIso st1
      = (st1, [], []) := by
  refine ⟨mapGet_mapDelete_self _ _, rfl, ?_⟩
  simp [wsMessage, hcur, hgone]

theorem timeout_idempotent_witness :
    (ServerState.mk (some ⟨"w1", none, 0⟩) [] []).currentClient
      = some ⟨"w1", none, 0⟩ ∧
    mapGet (ServerState.mk (some ⟨"w1", none, 0⟩) [] []).pendingRequests "r1" = none ∧
    (mapGet (timeoutFire "r1" 1 10
        (ServerState.mk (some ⟨"w1", none, 0⟩) [("r1", ⟨1, 10⟩)] [10])).1.pendingRequests "r1"
      = none ∧
     (timeoutFire "r1" 1 10
        (ServerState.mk (some ⟨"w1", none, 0⟩) [("r1", ⟨1, 10⟩)] [10])).2
      = [Resolution.rejected 1 timeoutError] ∧
     wsMessage "w1" ⟨"response", some "r1", none, some (.str "late")⟩ "ts"
        (ServerState.mk (some ⟨"w1", none, 0⟩) [] [])
      = (ServerState.mk (some ⟨"w1", none, 0⟩) [] [], [], [])) :=
  ⟨rfl, rfl,
   timeout_idempotent
     (ServerState.mk (some ⟨"w1", none, 0⟩) [("r1", ⟨1, 10⟩)] [10])
     (ServerState.mk (some ⟨"w1", none, 0⟩) [] [])
     ⟨"w1", none, 0⟩ "r1" 1 10 (some (.str "late")) "ts" rfl rfl⟩

/-- Claim C10: when transmitting the serialized command throws, `send`
is atomic with respect to the correlation table: the just-registered
entry is removed, its deadline timer is cancelled, and the caller is
rejected with the thrown error, leaving the state exactly as before the
call.  The freshness hypotheses reflect that `crypto.randomUUID` and
`setTimeout` return identifiers not already in use. -/
theorem send_failure_atomic (ctype : String) (payload : Option JVal)
    (caller : Nat) (rid : String) (timerId : Nat) (err : String)
    (st : ServerState) (cur : ThunderbirdClient)
    (hcur : st.currentClient = some cur)
    (hfresh : mapGet st.pendingRequests rid = none)
    (htimer : timerId ∉ st.liveTimers) :
    sendCommandToThunderbird ctype payload caller rid timerId (some err) st
      = (st, [], [Resolution.rejected caller err]) := by
  have h1 : mapDelete (mapSet st.pendingRequests rid ⟨caller, timerId⟩) rid
      = st.pendingRequests :=
    mapDelete_mapSet_of_mapGet_none _ _ _ hfresh
  have h2 : (st.liveTimers ++ [timerId]).erase timerId = st.liveTimers :=
    erase_append_singleton htimer
  have h3 : ({ currentClient := some cur,
               pendingRequests := st.pendingRequests,
               liveTimers := st.liveTimers } : ServerState) = st := by
    rw [← hcur]
  simp [sendCommandToThunderbird, hcur, h1, h2, h3]

theorem send_failure_atomic_witness :
    (ServerState.mk (some ⟨"w1", none, 0⟩) [("r0", ⟨0, 9⟩)] [9]).currentClient
      = some ⟨"w1", none, 0⟩ ∧
    mapGet (ServerState.mk (some ⟨"w1", none, 0⟩) [("r0", ⟨0, 9⟩)] [9]).pendingRequests "r1"
      = none ∧
    10 ∉ (ServerState.mk (some ⟨"w1", none, 0⟩) [("r0", ⟨0, 9⟩)] [9]).liveTimers ∧
    sendCommandToThunderbird "list_accounts" none 1 "r1" 10 (some "socket closed")
        (ServerState.mk (some ⟨"w1", none, 0⟩) [("r0", ⟨0, 9⟩)] [9])
      = (ServerState.mk (some ⟨"w1", none, 0⟩) [("r0", ⟨0, 9⟩)] [9], [],
         [Resolution.rejected 1 "socket closed"]) :=
  ⟨rfl, by decide, by decide,
   send_failure_atomic "list_accounts" none 1 "r1" 10 "socket closed"
     _ ⟨"w1", none, 0⟩ rfl (by decide) (by decide)⟩

/-- Claim C7 counterexample: destroying the current connection does NOT
complete the in-flight requests addressed to it — the `close` handler
only clears the current-client slot and leaves the correlation table
untouched, so a pending entry stays pending (it is later completed by
its own deadline timer, not by the connection loss). -/
theorem close_leaves_pending_counterexample :
    (wsClose "w1"
        (ServerState.mk (some ⟨"w1", none, 0⟩) [("r1", ⟨7, 10⟩)] [10])).currentClient
      = none ∧
    (wsClose "w1"
        (ServerState.mk (some ⟨"w1", none, 0⟩) [("r1", ⟨7, 10⟩)] [10])).pendingRequests
      = [("r1", ⟨7, 10⟩)] := by
  constructor <;> rfl

/-- Claim C7 amended: a pending request is destroyed exactly when it is
fulfilled by a matching response, by its deadline timer, or by a send
failure; connection loss (disconnect or supersession) leaves the
correlation table and the timers unchanged, the in-flight requests
remaining pending until their own deadlines fire. -/
theorem connection_loss_preserves_table (st : ServerState) (wsId : String)
    (now : Nat) (nowIso : String) :
    (wsClose wsId st).pendingRequests = st.pendingRequests ∧
    (wsClose wsId st).liveTimers = st.liveTimers ∧
    (wsOpen wsId now nowIso st).1.pendingRequests = st.pendingRequests ∧
    (wsOpen wsId now nowIso st).1.liveTimers = st.liveTimers := by
  refine ⟨?_, ?_, rfl, rfl⟩ <;>
    · unfold wsClose
      cases st.currentClient with
      | none => rfl
      | some cur =>
        by_cases h : cur.wsId = wsId <;> simp [h]

/-- Claim C6: the code stops reconnecting after a failed retry.  Trace:
the add-on connects, the connection closes (one reconnect timer is
scheduled — the first conjunct), the timer fires and the retry's
connection closes again; because the fired timer's stale handle is
still stored in `reconnectTimeout`, the `onclose` guard
`if (!reconnectTimeout)` blocks scheduling, leaving the worker
disconnected with no reconnect timer outstanding (second conjunct),
contrary to the documented automatic reconnect every 5 seconds. -/
theorem reconnect_stops_after_failed_retry :
    (workerRun workerInit [WEvent.connect true, WEvent.closed]).liveReconnectTimers
      = [0] ∧
    workerRun workerInit
        [WEvent.connect true, WEvent.closed, WEvent.timerFired true, WEvent.closed]
      = { wsConn := false, reconnectTimeout := some 0, heartbeatRunning := false,
          liveReconnectTimers := [], nextTimerId := 1 } := by
  constructor <;> rfl

/-- Claim C5: for every command frame the worker receives that carries a
`requestId` and is not one of the system message types, `handleCommand`
passes exactly one `response` message to `sendToCC`, echoing that
`requestId`; for a known command type its payload is the executor's
result — or, when the executor raises, the failure payload carrying the
error message — and for an unrecognized type it is the payload tagged
with the Unknown-command-type error, never a silent drop. -/
theorem worker_always_responds (exec : String → Option JVal → ExecResult)
    (cmd : WCommand) (rid : String)
    (hrid : cmd.requestId = some rid)
    (hsys : cmd.type ∉ systemMessageTypes) :
    handleCommand exec cmd
      = [⟨"response", some rid,
          some (if cmd.type ∈ knownCommandTypes then
                  match exec cmd.type cmd.payload with
                  | .ok r => r
                  | .raised m s => raisedPayload m s
                else unknownCommandPayload cmd.type)⟩] := by
  unfold handleCommand
  rw [if_neg hsys]
  by_cases hknown : cmd.type ∈ knownCommandTypes
  · rw [if_pos hknown, if_pos hknown]
    cases exec cmd.type cmd.payload <;> simp [hrid]
  · rw [if_neg hknown, if_neg hknown]
    simp [hrid]

theorem worker_always_responds_witness :
    (WCommand.mk "frobnicate" (some "r2") none).requestId = some "r2" ∧
    "frobnicate" ∉ systemMessageTypes ∧
    handleCommand (fun _ _ => ExecResult.ok (.obj [("success", .bool true)]))
        (WCommand.mk "frobnicate" (some "r2") none)
      = [⟨"response", some "r2",
          some (if "frobnicate" ∈ knownCommandTypes then
                  match (fun (_ : String) (_ : Option JVal) =>
                          ExecResult.ok (JVal.obj [("success", .bool true)]))
                        "frobnicate" (none : Option JVal) with
                  | .ok r => r
                  | .raised m s => raisedPayload m s
                else unknownCommandPayload "frobnicate")⟩] :=
  ⟨rfl, by decide,
   worker_always_responds (fun _ _ => ExecResult.ok (.obj [("success", .bool true)]))
     (WCommand.mk "frobnicate" (some "r2") none) "r2" rfl (by decide)⟩

/-- Claim C9: on a successful `read_email` result whose message has a
truthy `isHtml` and a string body, the front-end replaces the body by
its markdown conversion and deletes the `isHtml` flag; when the
conversion raises, the result is returned unchanged, the body still the
original HTML. -/
theorem read_email_html_conversion (convert : String → Option String)
    (fields mfields : List (String × JVal)) (body : String) (hv : JVal)
    (hsucc : objGet fields "success" = some (.bool true))
    (hmsg : objGet fields "message" = some (.obj mfields))
    (hhtml : objGet mfields "isHtml" = some hv)
    (htruthy : jTruthy hv = true)
    (hbody : objGet mfields "body" = some (.str body)) :
    (∀ md : String, convert body = some md →
      postProcessReadEmail convert (.obj fields)
        = .obj (objSet fields "message"
            (.obj (objDelete (objSet mfields "body" (.str md)) "isHtml")))) ∧
    (convert body = none →
      postProcessReadEmail convert (.obj fields) = .obj fields) := by
  have hobj : jTruthy (JVal.obj mfields) = true := rfl
  constructor
  · intro md hmd
    simp [postProcessReadEmail, hsucc, hmsg, hhtml, htruthy, hbody, hmd, hobj]
  · intro hmd
    simp [postProcessReadEmail, hsucc, hmsg, hhtml, htruthy, hbody, hmd, hobj]

theorem read_email_html_conversion_witness :
    objGet [("success", JVal.bool true),
            ("message", JVal.obj [("isHtml", .bool true), ("body", .str "<p>hi</p>")])]
        "success" = some (.bool true) ∧
    postProcessReadEmail (fun _ => some "hi")
        (.obj [("success", .bool true),
               ("message", .obj [("isHtml", .bool true), ("body", .str "<p>hi</p>")])])
      = .obj (objSet
          [("success", JVal.bool true),
           ("message", JVal.obj [("isHtml", .bool true), ("body", .str "<p>hi</p>")])]
          "message"
          (.obj (objDelete
            (objSet [("isHtml", JVal.bool true), ("body", JVal.str "<p>hi</p>")]
              "body" (.str "hi"))
            "isHtml"))) :=
  ⟨rfl,
   (read_email_html_conversion (fun _ => some "hi")
      [("success", .bool true),
       ("message", .obj [("isHtml", .bool true), ("body", .str "<p>hi</p>")])]
      [("isHtml", .bool true), ("body", .str "<p>hi</p>")]
      "<p>hi</p>" (.bool true) rfl rfl rfl rfl rfl).1 "hi" rfl⟩
